import Mathlib

/-!
Verification of the HSM authorization-and-lockdown controller
(`shared/hsm_ux.py`): the policy approval flow (`ApproveHSMPolicy.interact`),
the loader/orchestration (`start_hsm_approval`), and the locked interaction
loop (`hsmUxInteraction.interact`), shallowly embedded as pure Lean
functions over explicit state and explicit environment events.
-/

/-- The `cylon` byte table from `hsm_ux.py` line 27: a fixed cyclic table of
horizontal pixel offsets for the heartbeat indicator, stored byte for byte
(the Python source stores it as a byte string). -/
def cylon : List Nat :=
  [58, 65, 72, 78, 84, 90, 96, 101, 105, 109, 112, 114, 115, 116,
   116, 115, 113, 110, 107, 103, 98, 93, 87, 81, 75, 68, 61, 55,
   48, 41, 35, 29, 23, 18, 13, 9, 6, 3, 1, 0,
   0, 1, 2, 4, 7, 11, 15, 20, 26, 32, 38, 44, 51]

/-- Modelled from the spec: `LOCAL_PIN_LENGTH` is imported from the `hsm`
module, which is not part of this tree.  The loop body itself fixes it to 6
(`hsm_ux.py` line 319 comment "allow only 6 digits", and the hard-coded 6 in
`show`, lines 229-230). -/
def LOCAL_PIN_LENGTH : Nat := 6

/-- Modelled from the spec: `numpad.ABORT_KEY`, the distinguished
abort/interrupt signal, lives in the `numpad` module which is not part of
this tree; the spec only requires it to be distinct from the digit, confirm
(`y`) and cancel (`x`) keys.  Keys are embedded as their character lists. -/
def ABORT_KEY : List Char := ['\xff']

/-- `'12346'[tcc.random.uniform(5)]` (`hsm_ux.py` line 57): the confirmation
token selected by the random index `r` drawn from `0..4`. -/
def confirmChar (r : Fin 5) : Char :=
  "12346".toList.getD r.val ' '

/-- Outcome of one `ux_show_story` presentation, as seen by the caller:
the story returns a key character, or raises `AbortInteraction`, or raises
some other (unexpected) exception. -/
inductive StoryOutcome where
  | returns (ch : Char)
  | aborted
  | raised
deriving DecidableEq, Repr

/-- Observable result of one run of `ApproveHSMPolicy.interact`
(`hsm_ux.py` lines 37-83): the `refused` / `failed` / `ux_done` flags of the
pending action, the arguments of the `policy.activate` calls it made, whether
`self.done()` ran (restoring the prior UI), and whether `the_ux.reset` was
called with the lockdown UI object. -/
structure ApproveResult where
  refused : Bool
  failed : Option String
  ux_done : Bool
  activateCalls : List Bool
  doneCalled : Bool
  uxResetToLockdown : Bool
deriving DecidableEq, Repr

/-- The common tail of `ApproveHSMPolicy.interact` (lines 71-83): set
`ux_done`, clean up, then either `self.done()` (refused) or
`policy.activate(self.new_file)` followed by `the_ux.reset(hsm_ux_obj)`. -/
def finishInteract (refused : Bool) (failed : Option String) (newFile : Bool) :
    ApproveResult :=
  if refused then
    { refused := true, failed := failed, ux_done := true,
      activateCalls := [], doneCalled := true, uxResetToLockdown := false }
  else
    { refused := false, failed := failed, ux_done := true,
      activateCalls := [newFile], doneCalled := false, uxResetToLockdown := true }

/-- `ApproveHSMPolicy.interact` (lines 37-83).  `newFile` is
`self.new_file`; `first` is the outcome of the first story (the policy
explanation, lines 47-52, where `AbortInteraction` is mapped to the key
`'x'`); `r` is the random index drawn at line 57; `second` is the outcome of
the second (last-chance) story, consulted only when the first gesture was
`'y'` and the policy is new.  Any exception other than the handled
`AbortInteraction` of the first story reaches the outer `except
BaseException` handler (lines 66-69), which records `failed = "Exception"`
and forces `refused = True`. -/
def interactApprove (newFile : Bool) (first : StoryOutcome) (r : Fin 5)
    (second : StoryOutcome) : ApproveResult :=
  match first with
  | .raised => finishInteract true (some "Exception") newFile
  | .aborted =>
      -- ch = 'x', so refused = ('x' != 'y') = true
      finishInteract true none newFile
  | .returns ch =>
      if ch = 'y' then
        if newFile then
          match second with
          | .returns ch2 => finishInteract (ch2 != confirmChar r) none newFile
          | _ => finishInteract true (some "Exception") newFile
        else
          finishInteract false none newFile
      else
        finishInteract true none newFile


/-! ## Policy loader (`start_hsm_approval`, lines 85-141) -/

/-- Result of `start_hsm_approval`: the distinct no-policy failure
(`raise ValueError("No existing policy")`, line 100), a parse failure either
raised to the USB caller (line 117) or shown as a story on the menu path
(line 124), or success with the `is_new` flag of the constructed
`ApproveHSMPolicy` request. -/
inductive LoadResult where
  | noPolicyError
  | parseErrorRaised (err : String)
  | parseErrorShown (err : String)
  | success (isNew : Bool)
deriving DecidableEq, Repr

/-- Whether a `start_hsm_approval` outcome installed an `ApproveHSMPolicy`
as `UserAuthorizedAction.active_request` (lines 127-128); the failure paths
return or raise before that point, and `cleanup()` at line 89 already
cleared any previous request. -/
def LoadResult.pendingCreated : LoadResult → Bool
  | .success _ => true
  | _ => false

/-- The diagnostic built at line 115:
`"HSM Policy invalid: %s: %s" % (problem_file_line(exc), str(exc))`; the
location-plus-message detail is the abstract `detail` string. -/
def mkPolicyErr (detail : String) : String :=
  "HSM Policy invalid: " ++ detail

/-- The text `start_hsm_approval` reads: the transfer buffer contents when
`sf_len` is non-zero (lines 93-95), otherwise the persisted policy file
(line 98), `none` when opening/reading that file fails. -/
def readPolicyText (sfLen : Nat) (sfContent : String)
    (persisted : Option String) : Option String :=
  if sfLen ≠ 0 then some sfContent else persisted

/-- `start_hsm_approval` (lines 85-141).  `parse` abstracts the composition
of `ujson.loads` and `HSMPolicy().load` (lines 105-113, the `hsm` module is
an external collaborator): it returns `Except.error detail` when either
step raises.  `startup_mode` and the two UI insertion strategies only differ
after the result here is fixed, so they are not part of this model. -/
def start_hsm_approval (sfLen : Nat) (sfContent : String) (usbMode : Bool)
    (persisted : Option String) (parse : String → Except String Unit) :
    LoadResult :=
  if sfLen ≠ 0 then
    match parse sfContent with
    | .error e =>
        if usbMode then .parseErrorRaised (mkPolicyErr e)
        else .parseErrorShown (mkPolicyErr e)
    | .ok _ => .success true
  else
    match persisted with
    | none => .noPolicyError
    | some json =>
        match parse json with
        | .error e =>
            if usbMode then .parseErrorRaised (mkPolicyErr e)
            else .parseErrorShown (mkPolicyErr e)
        | .ok _ => .success false

/-! ## Locked interaction loop (`hsmUxInteraction.interact`, lines 283-349) -/

/-- State carried across iterations of the lockdown loop: the local digit
buffer `self.digits`, the heartbeat `self.phase`, the simulator-only
`self.test_restart` flag, the `ux_done` flag of
`UserAuthorizedAction.active_request` (`none` when no request is active),
and whether `main.hsm_active` is set (activation). -/
structure LoopState where
  digits : List Char
  phase : Nat
  test_restart : Bool
  action : Option Bool
  hsmActiveSet : Bool
deriving DecidableEq, Repr

/-- Result of the non-blocking poll `numpad.get_nowait()` (line 306): a key
(a possibly empty character sequence), `QueueEmpty`, or some other exception
raised during the poll/handling (caught at line 327). -/
inductive PollResult where
  | key (ch : List Char)
  | empty
  | raised
deriving DecidableEq, Repr

/-- Behaviour of `await req.interact()` when the loop services the active
pending action (line 336): it completes leaving the request with the given
`ux_done` flag, raises `AbortInteraction` (swallowed at lines 337-338), or
raises some other exception (uncaught there). -/
inductive ActionOutcome where
  | completes (newDone : Bool)
  | abortRaised
  | raised
deriving DecidableEq, Repr

/-- Environment of one loop iteration: whether `self.show()` raises a
drawing error, what the poll yields, and what the pending action does if it
is stepped. -/
structure IterEnv where
  showRaises : Bool
  poll : PollResult
  actionRun : ActionOutcome
deriving DecidableEq, Repr

/-- External calls recorded during one or more iterations: the arguments of
`main.hsm_active.local_pin_entered(...)` calls (line 312) and the number of
`req.interact()` invocations (line 336). -/
structure StepCalls where
  pinEntered : List (List Char)
  interactSteps : Nat
deriving DecidableEq, Repr

def noCalls : StepCalls := ⟨[], 0⟩

def StepCalls.append (a b : StepCalls) : StepCalls :=
  ⟨a.pinEntered ++ b.pinEntered, a.interactSteps + b.interactSteps⟩

/-- Output of one loop iteration: the successor state, the recorded external
calls, and whether an exception escaped the iteration (terminating the
loop). -/
structure IterOut where
  state : LoopState
  calls : StepCalls
  escaped : Bool
deriving DecidableEq, Repr

/-- The heartbeat advance `self.phase = (self.phase + 1) % len(cylon)`
performed by `show()` at line 222, once per iteration. -/
def tick (s : LoopState) : LoopState :=
  { s with phase := (s.phase + 1) % cylon.length }

/-- The key dispatch of lines 308-320: cancel clears the buffer, confirm
submits only a full-length buffer, the abort key is eaten, and any other
non-empty key appends its first character while the buffer is short; every
branch then hits the `continue` at line 323. -/
def pollStep (s : LoopState) (ch : List Char) : LoopState × StepCalls :=
  if ch = ['x'] then
    ({ s with digits := [] }, noCalls)
  else if ch = ['y'] then
    if s.digits.length = LOCAL_PIN_LENGTH then
      ({ s with digits := [] }, ⟨[s.digits], 0⟩)
    else
      (s, noCalls)
  else if ch = ABORT_KEY then
    (s, noCalls)
  else
    match ch with
    | [] => (s, noCalls)
    | c :: _ =>
        if s.digits.length < LOCAL_PIN_LENGTH then
          ({ s with digits := s.digits ++ [c] }, noCalls)
        else
          (s, noCalls)

/-- The pending-action servicing of lines 332-338, reached only on the
`QueueEmpty` path: if an active request exists and is not `ux_done`, one
step of its `interact()` runs; `AbortInteraction` from it is swallowed,
any other exception escapes the iteration. -/
def serviceAction (s : LoopState) (outcome : ActionOutcome) : IterOut :=
  match s.action with
  | some false =>
      match outcome with
      | .completes d => ⟨{ s with action := some d }, ⟨[], 1⟩, false⟩
      | .abortRaised => ⟨s, ⟨[], 1⟩, false⟩
      | .raised => ⟨s, ⟨[], 1⟩, true⟩
  | _ => ⟨s, noCalls, false⟩

/-- One iteration of the `while not self.test_restart` body (lines
300-338).  `self.show()` runs first and unguarded, so a drawing error there
escapes (the statistics are drawn at line 217, before the heartbeat
advance).  A poll that returns a key is handled and `continue`s (line 323);
a poll exception is printed and `continue`s (lines 327-330); only the
`QueueEmpty` path (line 325) falls through to the pending-action
servicing. -/
def loopStep (s : LoopState) (e : IterEnv) : IterOut :=
  if e.showRaises then ⟨s, noCalls, true⟩
  else
    let s1 := tick s
    match e.poll with
    | .key ch =>
        let p := pollStep s1 ch
        ⟨p.1, p.2, false⟩
    | .raised => ⟨s1, noCalls, false⟩
    | .empty => serviceAction s1 e.actionRun

/-- How a (finite prefix of a) run of the lockdown loop ends: still looping
when the supplied events are exhausted, left through the simulator-only
test escape (lines 340-347, reached only when `test_restart` was already
true at the top of an iteration), or terminated by an escaped exception. -/
inductive RunKind where
  | ongoing
  | exitedToMenu
  | escapedExc
deriving DecidableEq, Repr

structure RunOut where
  state : LoopState
  calls : StepCalls
  kind : RunKind
deriving DecidableEq, Repr

/-- Run the loop over a list of per-iteration environments, accumulating
the recorded external calls. -/
def loopRunFrom (s : LoopState) (acc : StepCalls) :
    List IterEnv → RunOut
  | [] => ⟨s, acc, .ongoing⟩
  | e :: es =>
      if s.test_restart then ⟨s, acc, .exitedToMenu⟩
      else
        let o := loopStep s e
        if o.escaped then ⟨o.state, acc.append o.calls, .escapedExc⟩
        else loopRunFrom o.state (acc.append o.calls) es

/-- A run of the lockdown loop starting with no calls recorded;
`self.digits = ''` and `self.test_restart = False` are set just before the
loop (lines 298-299), which the theorems take as hypotheses on `s` where
they matter. -/
def loopRun (s : LoopState) (es : List IterEnv) : RunOut :=
  loopRunFrom s noCalls es


/-- A first-story outcome the decision step treats as rejection (line 54:
`self.refused = (ch != 'y')`, with `AbortInteraction` mapped to `'x'`). -/
def firstRejected : StoryOutcome → Bool
  | .returns c => c != 'y'
  | .aborted => true
  | .raised => true

/-- Forget the heartbeat phase of an iteration output, for stating that the
phase influences nothing but itself. -/
def eraseOut (o : IterOut) : IterOut :=
  ⟨{ o.state with phase := 0 }, o.calls, o.escaped⟩

/-! ## Helper lemmas -/

lemma pollStep_frame (s : LoopState) (ch : List Char) :
    (pollStep s ch).1.phase = s.phase ∧
    (pollStep s ch).1.action = s.action ∧
    (pollStep s ch).1.test_restart = s.test_restart ∧
    (pollStep s ch).1.hsmActiveSet = s.hsmActiveSet ∧
    (pollStep s ch).2.interactSteps = 0 := by
  rcases ch with _ | ⟨c, cs⟩ <;>
    simp only [pollStep, noCalls] <;>
    split_ifs <;> simp

lemma pollStep_digits_le (s : LoopState) (ch : List Char)
    (h : s.digits.length ≤ LOCAL_PIN_LENGTH) :
    (pollStep s ch).1.digits.length ≤ LOCAL_PIN_LENGTH := by
  rcases ch with _ | ⟨c, cs⟩ <;>
    simp only [pollStep, noCalls] <;>
    split_ifs with h1 h2 h3 <;> first
      | (simp_all; omega)
      | simp_all

lemma pollStep_phase (s : LoopState) (p : Nat) (ch : List Char) :
    pollStep { s with phase := p } ch
      = ({ (pollStep s ch).1 with phase := p }, (pollStep s ch).2) := by
  rcases ch with _ | ⟨c, cs⟩ <;>
    simp only [pollStep, noCalls] <;>
    split_ifs <;> rfl

lemma serviceAction_frame (s : LoopState) (a : ActionOutcome) :
    (serviceAction s a).state.digits = s.digits ∧
    (serviceAction s a).state.phase = s.phase ∧
    (serviceAction s a).state.test_restart = s.test_restart ∧
    (serviceAction s a).state.hsmActiveSet = s.hsmActiveSet ∧
    (serviceAction s a).calls.pinEntered = [] := by
  rcases s with ⟨d, p, t, act, hs⟩
  rcases act with _ | _ | _ <;> rcases a with _ | _ | _ <;>
    simp [serviceAction, noCalls]

lemma serviceAction_done (s : LoopState) (a : ActionOutcome)
    (h : s.action = some true) :
    serviceAction s a = ⟨s, noCalls, false⟩ := by
  rcases s with ⟨d, p, t, act, hs⟩
  simp only [LoopState.action] at h
  subst h
  rcases a with _ | _ | _ <;> rfl

lemma serviceAction_phase (s : LoopState) (p : Nat) (a : ActionOutcome) :
    serviceAction { s with phase := p } a
      = ⟨{ (serviceAction s a).state with phase := p },
         (serviceAction s a).calls, (serviceAction s a).escaped⟩ := by
  rcases s with ⟨d, ph, t, act, hs⟩
  rcases act with _ | ⟨_ | _⟩ <;> rcases a with _ | _ | _ <;> rfl

@[simp] lemma tick_digits (s : LoopState) : (tick s).digits = s.digits := rfl
@[simp] lemma tick_phase (s : LoopState) :
    (tick s).phase = (s.phase + 1) % cylon.length := rfl
@[simp] lemma tick_test_restart (s : LoopState) :
    (tick s).test_restart = s.test_restart := rfl
@[simp] lemma tick_action (s : LoopState) : (tick s).action = s.action := rfl
@[simp] lemma tick_hsmActiveSet (s : LoopState) :
    (tick s).hsmActiveSet = s.hsmActiveSet := rfl

lemma loopStep_show (s : LoopState) (e : IterEnv) (h : e.showRaises = true) :
    loopStep s e = ⟨s, noCalls, true⟩ := by
  rcases e with ⟨sr, poll, ar⟩
  cases h
  rfl

lemma loopStep_key (s : LoopState) (e : IterEnv) (ch : List Char)
    (h1 : e.showRaises = false) (h2 : e.poll = .key ch) :
    loopStep s e = ⟨(pollStep (tick s) ch).1, (pollStep (tick s) ch).2, false⟩ := by
  rcases e with ⟨sr, poll, ar⟩
  cases h1
  cases h2
  rfl

lemma loopStep_pollRaised (s : LoopState) (e : IterEnv)
    (h1 : e.showRaises = false) (h2 : e.poll = .raised) :
    loopStep s e = ⟨tick s, noCalls, false⟩ := by
  rcases e with ⟨sr, poll, ar⟩
  cases h1
  cases h2
  rfl

lemma loopStep_emptyPoll (s : LoopState) (e : IterEnv)
    (h1 : e.showRaises = false) (h2 : e.poll = .empty) :
    loopStep s e = serviceAction (tick s) e.actionRun := by
  rcases e with ⟨sr, poll, ar⟩
  cases h1
  cases h2
  rfl

lemma loopStep_test_restart (s : LoopState) (e : IterEnv) :
    (loopStep s e).state.test_restart = s.test_restart := by
  rcases hsr : e.showRaises with _ | _
  · rcases hp : e.poll with ⟨ch⟩ | _ | _
    · rw [loopStep_key s e ch hsr hp]
      exact (pollStep_frame (tick s) ch).2.2.1
    · rw [loopStep_emptyPoll s e hsr hp]
      exact (serviceAction_frame (tick s) e.actionRun).2.2.1
    · rw [loopStep_pollRaised s e hsr hp]
      rfl
  · rw [loopStep_show s e hsr]

lemma loopStep_hsmActive (s : LoopState) (e : IterEnv) :
    (loopStep s e).state.hsmActiveSet = s.hsmActiveSet := by
  rcases hsr : e.showRaises with _ | _
  · rcases hp : e.poll with ⟨ch⟩ | _ | _
    · rw [loopStep_key s e ch hsr hp]
      exact (pollStep_frame (tick s) ch).2.2.2.1
    · rw [loopStep_emptyPoll s e hsr hp]
      exact (serviceAction_frame (tick s) e.actionRun).2.2.2.1
    · rw [loopStep_pollRaised s e hsr hp]
      rfl
  · rw [loopStep_show s e hsr]

lemma loopStep_digits_le (s : LoopState) (e : IterEnv)
    (h : s.digits.length ≤ LOCAL_PIN_LENGTH) :
    (loopStep s e).state.digits.length ≤ LOCAL_PIN_LENGTH := by
  rcases hsr : e.showRaises with _ | _
  · rcases hp : e.poll with ⟨ch⟩ | _ | _
    · rw [loopStep_key s e ch hsr hp]
      exact pollStep_digits_le (tick s) ch h
    · rw [loopStep_emptyPoll s e hsr hp]
      rw [show (serviceAction (tick s) e.actionRun).state.digits = (tick s).digits from
        (serviceAction_frame (tick s) e.actionRun).1]
      exact h
    · rw [loopStep_pollRaised s e hsr hp]
      exact h
  · rw [loopStep_show s e hsr]
    exact h

lemma loopStep_action_done (s : LoopState) (e : IterEnv)
    (h : s.action = some true) :
    (loopStep s e).state.action = some true ∧
    (loopStep s e).calls.interactSteps = 0 := by
  rcases hsr : e.showRaises with _ | _
  · rcases hp : e.poll with ⟨ch⟩ | _ | _
    · rw [loopStep_key s e ch hsr hp]
      refine ⟨?_, (pollStep_frame (tick s) ch).2.2.2.2⟩
      rw [show (pollStep (tick s) ch).1.action = (tick s).action from
        (pollStep_frame (tick s) ch).2.1]
      simpa using h
    · rw [loopStep_emptyPoll s e hsr hp]
      rw [serviceAction_done (tick s) e.actionRun (by simpa using h)]
      exact ⟨by simpa using h, rfl⟩
    · rw [loopStep_pollRaised s e hsr hp]
      exact ⟨by simpa using h, rfl⟩
  · rw [loopStep_show s e hsr]
    exact ⟨h, rfl⟩

@[simp] lemma append_interactSteps (a b : StepCalls) :
    (a.append b).interactSteps = a.interactSteps + b.interactSteps := rfl

@[simp] lemma append_pinEntered (a b : StepCalls) :
    (a.append b).pinEntered = a.pinEntered ++ b.pinEntered := rfl

@[simp] lemma noCalls_interactSteps : noCalls.interactSteps = 0 := rfl

@[simp] lemma noCalls_pinEntered : noCalls.pinEntered = ([] : List (List Char)) := rfl

lemma loopRunFrom_action_done (es : List IterEnv) :
    ∀ (s : LoopState) (acc : StepCalls), s.action = some true →
      (loopRunFrom s acc es).calls.interactSteps = acc.interactSteps := by
  induction es with
  | nil => intro s acc _; rfl
  | cons e es ih =>
      intro s acc h
      by_cases ht : s.test_restart
      · simp [loopRunFrom, ht]
      · by_cases he : (loopStep s e).escaped
        · simp [loopRunFrom, ht, he, (loopStep_action_done s e h).2]
        · simp only [loopRunFrom, ht, if_false, he, Bool.false_eq_true]
          rw [ih (loopStep s e).state (acc.append (loopStep s e).calls)
            (loopStep_action_done s e h).1]
          simp [(loopStep_action_done s e h).2]

lemma loopRunFrom_no_menu_exit (es : List IterEnv) :
    ∀ (s : LoopState) (acc : StepCalls), s.test_restart = false →
      (loopRunFrom s acc es).kind ≠ RunKind.exitedToMenu := by
  induction es with
  | nil => intro s acc _; simp [loopRunFrom]
  | cons e es ih =>
      intro s acc h
      by_cases he : (loopStep s e).escaped
      · simp [loopRunFrom, h, he]
      · simp only [loopRunFrom, h, Bool.false_eq_true, if_false, he]
        exact ih (loopStep s e).state (acc.append (loopStep s e).calls)
          ((loopStep_test_restart s e).trans h)

lemma loopRunFrom_digits_le (es : List IterEnv) :
    ∀ (s : LoopState) (acc : StepCalls), s.digits.length ≤ LOCAL_PIN_LENGTH →
      (loopRunFrom s acc es).state.digits.length ≤ LOCAL_PIN_LENGTH := by
  induction es with
  | nil => intro s acc h; exact h
  | cons e es ih =>
      intro s acc h
      by_cases ht : s.test_restart
      · simpa [loopRunFrom, ht] using h
      · by_cases he : (loopStep s e).escaped
        · simpa [loopRunFrom, ht, he] using loopStep_digits_le s e h
        · simp only [loopRunFrom, ht, Bool.false_eq_true, if_false, he]
          exact ih (loopStep s e).state (acc.append (loopStep s e).calls)
            (loopStep_digits_le s e h)

lemma serviceAction_steps (s : LoopState) (a : ActionOutcome) :
    (serviceAction s a).calls.interactSteps =
      if s.action = some false then 1 else 0 := by
  rcases s with ⟨d, p, t, act, hs⟩
  rcases act with _ | (_ | _) <;> rcases a with _ | _ | _ <;>
    simp [serviceAction, noCalls]

/-! ## Claim theorems -/

/-- C10: whenever the second confirmation step runs, the randomly selected
confirmation token (`'12346'[tcc.random.uniform(5)]`, line 57) is one of
exactly the five characters `'1'`, `'2'`, `'3'`, `'4'`, `'6'`; in
particular `'0'`, `'5'`, `'7'`, `'8'`, `'9'` can never be the required
token. -/
theorem c10_confirm_token_alphabet (r : Fin 5) :
    confirmChar r ∈ (['1', '2', '3', '4', '6'] : List Char) ∧
    confirmChar r ∉ (['0', '5', '7', '8', '9'] : List Char) := by
  fin_cases r <;> decide

theorem c10_confirm_token_alphabet_witness :
    confirmChar ⟨2, by decide⟩ ∈ (['1', '2', '3', '4', '6'] : List Char) :=
  (c10_confirm_token_alphabet ⟨2, by decide⟩).1

/-- C1: for a new policy (`is_new_policy = true`) whose first gesture is
acceptance (`'y'`), the flow ends approved exactly when the second gesture
is the one randomly selected token `confirmChar r`; every other second
outcome — any other character, interruption, or no input — ends refused,
and `policy.activate` is called exactly on approval. -/
theorem c1_new_policy_token_gate (r : Fin 5) (second : StoryOutcome) :
    ((interactApprove true (.returns 'y') r second).refused = false ↔
        second = .returns (confirmChar r)) ∧
    (interactApprove true (.returns 'y') r second).activateCalls =
      (if second = .returns (confirmChar r) then [true] else []) := by
  rcases second with ⟨c⟩ | _ | _
  · by_cases hc : c = confirmChar r
    · subst hc
      simp [interactApprove, finishInteract]
    · simp [interactApprove, finishInteract, hc]
  · simp [interactApprove, finishInteract]
  · simp [interactApprove, finishInteract]

theorem c1_new_policy_token_gate_witness :
    (interactApprove true (.returns 'y') ⟨1, by decide⟩
        (.returns '2')).activateCalls = [true] :=
  ((c1_new_policy_token_gate ⟨1, by decide⟩ (.returns '2')).2).trans (by decide)

/-- C2: whenever the first gesture is a rejection (any non-`'y'` key or an
interruption of the first story), or an unexpected exception is raised
during a presentation step, `interact` ends with `refused = true` and no
call to `policy.activate`; an unexpected exception is additionally recorded
in `failed`.  Approval fails closed. -/
theorem c2_fail_closed (newFile : Bool) (first : StoryOutcome) (r : Fin 5)
    (second : StoryOutcome)
    (h : firstRejected first = true ∨
         (newFile = true ∧ first = .returns 'y' ∧
           (second = .aborted ∨ second = .raised))) :
    (interactApprove newFile first r second).refused = true ∧
    (interactApprove newFile first r second).activateCalls = [] ∧
    (first = .raised →
      (interactApprove newFile first r second).failed = some "Exception") ∧
    (newFile = true → first = .returns 'y' → second = .aborted ∨ second = .raised →
      (interactApprove newFile first r second).failed = some "Exception") := by
  rcases h with h | ⟨hn, hf, hs⟩
  · rcases first with ⟨c⟩ | _ | _
    · have hc : ¬(c = 'y') := by simpa [firstRejected] using h
      simp [interactApprove, finishInteract, hc]
    · simp [interactApprove, finishInteract]
    · simp [interactApprove, finishInteract]
  · subst hn
    subst hf
    rcases hs with hs | hs <;> subst hs <;>
      simp [interactApprove, finishInteract]

theorem c2_fail_closed_witness :
    (interactApprove false (.returns 'x') ⟨0, by decide⟩ .aborted).refused = true :=
  (c2_fail_closed false (.returns 'x') ⟨0, by decide⟩ .aborted
    (Or.inl (by decide))).1

/-- C7: for a previously-persisted policy (`is_new = false`), the single
acceptance gesture `'y'` suffices: the flow ends approved with
`policy.activate(False)` called exactly once, no second confirmation step
(the outcome does not depend on the random index or the second story), and
the UI reset to the lockdown object; moreover once the request is `ux_done`
the lockdown loop never invokes its `interact()` again, over any sequence
of iterations. -/
theorem c7_persisted_single_gesture (r : Fin 5) (second : StoryOutcome)
    (s : LoopState) (es : List IterEnv) (h : s.action = some true) :
    interactApprove false (.returns 'y') r second =
      { refused := false, failed := none, ux_done := true,
        activateCalls := [false], doneCalled := false,
        uxResetToLockdown := true } ∧
    (loopRun s es).calls.interactSteps = 0 := by
  constructor
  · simp [interactApprove, finishInteract]
  · unfold loopRun
    rw [loopRunFrom_action_done es s noCalls h]
    rfl

theorem c7_persisted_single_gesture_witness :
    (loopRun ⟨[], 0, false, some true, true⟩
        [⟨false, .empty, .completes true⟩,
         ⟨false, .key ['y'], .completes true⟩]).calls.interactSteps = 0 :=
  (c7_persisted_single_gesture ⟨0, by decide⟩ .aborted
    ⟨[], 0, false, some true, true⟩
    [⟨false, .empty, .completes true⟩, ⟨false, .key ['y'], .completes true⟩]
    rfl).2

/-- C4: inside the lockdown loop the dedicated abort/interrupt gesture is
silently eaten (lines 314-316): the iteration completes normally with the
digit buffer, pending action, activation and `test_restart` untouched (only
the cosmetic heartbeat advances, as in every iteration) and no external
call made; and since nothing in the loop body ever sets `test_restart`, no
run of the loop body from a live session (`test_restart = false`, line 299)
ever reaches the simulator-only exit back to the normal menu (lines
340-347): the lockdown transition is one-way. -/
theorem c4_abort_suppressed_one_way (s : LoopState) (e : IterEnv)
    (es : List IterEnv) (h1 : e.showRaises = false)
    (h2 : e.poll = .key ABORT_KEY) (h3 : s.test_restart = false) :
    loopStep s e = ⟨tick s, noCalls, false⟩ ∧
    (loopRun s es).kind ≠ RunKind.exitedToMenu := by
  constructor
  · rw [loopStep_key s e ABORT_KEY h1 h2]
    have hp : pollStep (tick s) ABORT_KEY = (tick s, noCalls) := by
      unfold pollStep
      rw [if_neg (by decide), if_neg (by decide), if_pos rfl]
    rw [hp]
  · exact loopRunFrom_no_menu_exit es s noCalls h3

theorem c4_abort_suppressed_one_way_witness :
    loopStep ⟨['1'], 5, false, some false, true⟩
        ⟨false, .key ABORT_KEY, .raised⟩
      = ⟨tick ⟨['1'], 5, false, some false, true⟩, noCalls, false⟩ :=
  (c4_abort_suppressed_one_way ⟨['1'], 5, false, some false, true⟩
    ⟨false, .key ABORT_KEY, .raised⟩ [] rfl rfl rfl).1

/-- C5: the local digit buffer.  Over any sequence of loop iterations the
buffer length never exceeds `LOCAL_PIN_LENGTH`; a confirm gesture (`'y'`)
with a short buffer is a no-op that does not call `local_pin_entered`; a
confirm gesture at exactly full length submits the buffer to
`local_pin_entered` exactly once and clears it; a cancel gesture (`'x'`)
clears it; and any other key appends its first character only while the
length is below `LOCAL_PIN_LENGTH` (lines 306-320). -/
theorem c5_digit_buffer (s : LoopState) (e : IterEnv) (es : List IterEnv)
    (h : s.digits.length ≤ LOCAL_PIN_LENGTH) :
    (loopRun s es).state.digits.length ≤ LOCAL_PIN_LENGTH ∧
    (e.showRaises = false → e.poll = .key ['y'] →
      s.digits.length < LOCAL_PIN_LENGTH →
      loopStep s e = ⟨tick s, noCalls, false⟩) ∧
    (e.showRaises = false → e.poll = .key ['y'] →
      s.digits.length = LOCAL_PIN_LENGTH →
      loopStep s e = ⟨{ tick s with digits := [] }, ⟨[s.digits], 0⟩, false⟩) ∧
    (e.showRaises = false → e.poll = .key ['x'] →
      loopStep s e = ⟨{ tick s with digits := [] }, noCalls, false⟩) ∧
    (∀ c cs, e.showRaises = false → e.poll = .key (c :: cs) →
      (c :: cs) ≠ ['x'] → (c :: cs) ≠ ['y'] → (c :: cs) ≠ ABORT_KEY →
      loopStep s e = ⟨{ tick s with digits :=
          if s.digits.length < LOCAL_PIN_LENGTH then s.digits ++ [c]
          else s.digits }, noCalls, false⟩) := by
  refine ⟨loopRunFrom_digits_le es s noCalls h, ?_, ?_, ?_, ?_⟩
  · intro h1 h2 hlt
    rw [loopStep_key s e ['y'] h1 h2]
    have hp : pollStep (tick s) ['y'] = (tick s, noCalls) := by
      unfold pollStep
      rw [if_neg (by decide), if_pos rfl,
        if_neg (by simpa using Nat.ne_of_lt hlt)]
    rw [hp]
  · intro h1 h2 heq
    rw [loopStep_key s e ['y'] h1 h2]
    have hp : pollStep (tick s) ['y']
        = ({ tick s with digits := [] }, ⟨[s.digits], 0⟩) := by
      unfold pollStep
      rw [if_neg (by decide), if_pos rfl, if_pos (by simpa using heq)]
      rfl
    rw [hp]
  · intro h1 h2
    rw [loopStep_key s e ['x'] h1 h2]
    have hp : pollStep (tick s) ['x'] = ({ tick s with digits := [] }, noCalls) := by
      unfold pollStep
      rw [if_pos rfl]
    rw [hp]
  · intro c cs h1 h2 hx hy ha
    rw [loopStep_key s e (c :: cs) h1 h2]
    have hp : pollStep (tick s) (c :: cs)
        = ({ tick s with digits :=
              if s.digits.length < LOCAL_PIN_LENGTH then s.digits ++ [c]
              else s.digits }, noCalls) := by
      unfold pollStep
      rw [if_neg hx, if_neg hy, if_neg ha]
      show (if (tick s).digits.length < LOCAL_PIN_LENGTH then
              ({ tick s with digits := (tick s).digits ++ [c] }, noCalls)
            else (tick s, noCalls)) = _
      by_cases hlen : s.digits.length < LOCAL_PIN_LENGTH
      · rw [if_pos (show (tick s).digits.length < LOCAL_PIN_LENGTH from hlen),
          if_pos hlen]
        rfl
      · rw [if_neg (show ¬(tick s).digits.length < LOCAL_PIN_LENGTH from hlen),
          if_neg hlen]
        rfl
    rw [hp]

theorem c5_digit_buffer_witness :
    loopStep ⟨['1', '2', '3', '4', '5', '6'], 0, false, none, true⟩
        ⟨false, .key ['y'], .raised⟩
      = ⟨{ tick ⟨['1', '2', '3', '4', '5', '6'], 0, false, none, true⟩
            with digits := [] },
         ⟨[['1', '2', '3', '4', '5', '6']], 0⟩, false⟩ :=
  (c5_digit_buffer ⟨['1', '2', '3', '4', '5', '6'], 0, false, none, true⟩
    ⟨false, .key ['y'], .raised⟩ [] (by decide)).2.2.1 rfl rfl (by decide)

/-- C9: in every completed loop iteration (whatever the poll yielded) the
heartbeat phase advances by exactly one modulo the length of the `cylon`
table (line 222), and the phase influences nothing else: two states
differing only in phase produce iteration outputs identical up to the
phase. -/
theorem c9_heartbeat (s : LoopState) (e : IterEnv) (p : Nat)
    (h : e.showRaises = false) :
    (loopStep s e).state.phase = (s.phase + 1) % cylon.length ∧
    eraseOut (loopStep { s with phase := p } e) = eraseOut (loopStep s e) := by
  have htick : tick { s with phase := p }
      = { tick s with phase := (p + 1) % cylon.length } := rfl
  constructor
  · rcases hp : e.poll with ⟨ch⟩ | _ | _
    · rw [loopStep_key s e ch h hp]
      rw [show ((pollStep (tick s) ch).1).phase = (tick s).phase from
        (pollStep_frame (tick s) ch).1]
      rfl
    · rw [loopStep_emptyPoll s e h hp]
      rw [(serviceAction_frame (tick s) e.actionRun).2.1]
      rfl
    · rw [loopStep_pollRaised s e h hp]
      rfl
  · rcases hp : e.poll with ⟨ch⟩ | _ | _
    · rw [loopStep_key s e ch h hp, loopStep_key { s with phase := p } e ch h hp]
      rw [htick, pollStep_phase (tick s) ((p + 1) % cylon.length) ch]
      simp [eraseOut]
    · rw [loopStep_emptyPoll s e h hp,
        loopStep_emptyPoll { s with phase := p } e h hp]
      rw [htick, serviceAction_phase (tick s) ((p + 1) % cylon.length) e.actionRun]
      simp [eraseOut]
    · rw [loopStep_pollRaised s e h hp,
        loopStep_pollRaised { s with phase := p } e h hp]
      rw [htick]
      simp [eraseOut]

theorem c9_heartbeat_witness :
    (loopStep ⟨[], 3, false, none, true⟩
        ⟨false, .empty, .completes true⟩).state.phase
      = (3 + 1) % cylon.length :=
  (c9_heartbeat ⟨[], 3, false, none, true⟩
    ⟨false, .empty, .completes true⟩ 7 rfl).1

/-- C3 as frozen is false: in this iteration the active pending action
exists and is not done, an input event (`'1'`) is received and handled, yet
no step of `interact()` is invoked — the `continue` at line 323 skips the
pending-action servicing whenever the poll returned an event. -/
theorem c3_counterexample :
    (⟨[], 0, false, some false, true⟩ : LoopState).action = some false ∧
    (loopStep ⟨[], 0, false, some false, true⟩
        ⟨false, .key ['1'], .completes true⟩).calls.interactSteps = 0 := by
  decide

/-- C3 amended: within one iteration the input poll always comes first, and
one step of the active pending action's `interact()` is invoked exactly
when the poll found no input (`QueueEmpty`), the iteration did not already
die in `show()`, and the action exists with `ux_done` unset; an iteration
that received and handled an input event `continue`s (line 323) and skips
the pending-action step. -/
theorem c3_amended_step_on_empty_poll (s : LoopState) (e : IterEnv) :
    (loopStep s e).calls.interactSteps =
      if e.showRaises = false ∧ e.poll = .empty ∧ s.action = some false
      then 1 else 0 := by
  rcases hsr : e.showRaises with _ | _
  · rcases hp : e.poll with ⟨ch⟩ | _ | _
    · rw [loopStep_key s e ch hsr hp]
      simp [hp, (pollStep_frame (tick s) ch).2.2.2.2]
    · rw [loopStep_emptyPoll s e hsr hp]
      rw [show (serviceAction (tick s) e.actionRun).calls.interactSteps
          = if (tick s).action = some false then 1 else 0 from
        serviceAction_steps (tick s) e.actionRun]
      simp [hsr, hp]
    · rw [loopStep_pollRaised s e hsr hp]
      simp [hp]
  · rw [loopStep_show s e hsr]
    simp [hsr]

theorem c3_amended_step_on_empty_poll_witness :
    (loopStep ⟨[], 0, false, some false, true⟩
        ⟨false, .empty, .raised⟩).calls.interactSteps =
      if (⟨false, .empty, .raised⟩ : IterEnv).showRaises = false ∧
         (⟨false, .empty, .raised⟩ : IterEnv).poll = .empty ∧
         (⟨[], 0, false, some false, true⟩ : LoopState).action = some false
      then 1 else 0 :=
  c3_amended_step_on_empty_poll ⟨[], 0, false, some false, true⟩
    ⟨false, .empty, .raised⟩

/-- C8 as frozen is false: a drawing error raised by `self.show()` (line
301) is outside the iteration's `try` block, so it escapes the iteration
and terminates the loop instead of being caught-and-continued. -/
theorem c8_counterexample :
    (loopStep ⟨[], 4, false, none, true⟩
        ⟨true, .empty, .completes true⟩).escaped = true ∧
    (loopRun ⟨[], 4, false, none, true⟩
        [⟨true, .empty, .completes true⟩]).kind = RunKind.escapedExc := by
  decide

/-- C8 amended: nothing in a loop iteration ever clears the activation
(`main.hsm_active` is only written in the simulator-only epilogue, line
345); an exception raised during the input poll/handling is caught and the
loop continues (lines 327-330), and `AbortInteraction` raised by the
pending-action step is swallowed (lines 337-338); but a drawing error in
`show()` — which runs before the `try` — escapes and terminates the
loop. -/
theorem c8_amended_error_containment (s : LoopState) (e : IterEnv) :
    (loopStep s e).state.hsmActiveSet = s.hsmActiveSet ∧
    (e.showRaises = false → e.poll = .raised →
      loopStep s e = ⟨tick s, noCalls, false⟩) ∧
    (e.showRaises = false → e.poll = .empty → s.action = some false →
      e.actionRun = .abortRaised → loopStep s e = ⟨tick s, ⟨[], 1⟩, false⟩) ∧
    (e.showRaises = true → (loopStep s e).escaped = true) := by
  refine ⟨loopStep_hsmActive s e, ?_, ?_, ?_⟩
  · intro h1 h2
    exact loopStep_pollRaised s e h1 h2
  · intro h1 h2 h3 h4
    rw [loopStep_emptyPoll s e h1 h2, h4]
    rcases s with ⟨d, p, t, act, hs⟩
    simp only [LoopState.action] at h3
    subst h3
    rfl
  · intro hh
    rw [loopStep_show s e hh]

theorem c8_amended_error_containment_witness :
    loopStep ⟨['7'], 9, false, some false, true⟩ ⟨false, .raised, .raised⟩
      = ⟨tick ⟨['7'], 9, false, some false, true⟩, noCalls, false⟩ :=
  (c8_amended_error_containment ⟨['7'], 9, false, some false, true⟩
    ⟨false, .raised, .raised⟩).2.1 rfl rfl

/-- C6: the loader raises the distinct no-policy error exactly when no
transfer buffer is supplied (`sf_len = 0`) and the persisted policy file
cannot be read; whenever the text actually read is malformed (the abstract
parse fails), the result is a parse-failure diagnostic (raised in USB mode,
shown otherwise) and no pending action is created; and on success `is_new`
is true exactly when the policy came from the transfer buffer. -/
theorem c6_loader (sfLen : Nat) (sfContent : String) (usbMode : Bool)
    (persisted : Option String) (parse : String → Except String Unit) :
    (start_hsm_approval sfLen sfContent usbMode persisted parse = .noPolicyError ↔
       sfLen = 0 ∧ persisted = none) ∧
    (∀ txt er, readPolicyText sfLen sfContent persisted = some txt →
       parse txt = .error er →
       start_hsm_approval sfLen sfContent usbMode persisted parse =
         (if usbMode then .parseErrorRaised (mkPolicyErr er)
          else .parseErrorShown (mkPolicyErr er)) ∧
       (start_hsm_approval sfLen sfContent usbMode persisted parse).pendingCreated
         = false) ∧
    (∀ b, start_hsm_approval sfLen sfContent usbMode persisted parse
        = .success b → (b = true ↔ sfLen ≠ 0)) := by
  by_cases h0 : sfLen = 0
  · subst h0
    rcases persisted with _ | json
    · have hstart : start_hsm_approval 0 sfContent usbMode none parse
          = .noPolicyError := by
        simp [start_hsm_approval]
      refine ⟨by rw [hstart]; simp, ?_, ?_⟩
      · intro txt er hr _
        simp [readPolicyText] at hr
      · intro b hb
        rw [hstart] at hb
        exact absurd hb (by simp)
    · rcases hp : parse json with er | u
      · have hstart : start_hsm_approval 0 sfContent usbMode (some json) parse
            = (if usbMode then .parseErrorRaised (mkPolicyErr er)
               else .parseErrorShown (mkPolicyErr er)) := by
          simp [start_hsm_approval, hp]
        refine ⟨by rw [hstart]; cases usbMode <;> simp, ?_, ?_⟩
        · intro txt er2 hr hp2
          have hj : json = txt := by simpa [readPolicyText] using hr
          subst hj
          rw [hp] at hp2
          have her : er2 = er := by
            have := hp2.symm
            simpa using this
          subst her
          exact ⟨hstart, by rw [hstart]; cases usbMode <;> rfl⟩
        · intro b hb
          rw [hstart] at hb
          cases usbMode <;> simp at hb
      · have hstart : start_hsm_approval 0 sfContent usbMode (some json) parse
            = .success false := by
          simp [start_hsm_approval, hp]
        refine ⟨by rw [hstart]; simp, ?_, ?_⟩
        · intro txt er hr hp2
          have hj : json = txt := by simpa [readPolicyText] using hr
          subst hj
          rw [hp] at hp2
          exact absurd hp2 (by simp)
        · intro b hb
          rw [hstart] at hb
          have hb' : b = false := by
            have := hb.symm
            simpa using this
          subst hb'
          simp
  · rcases hp : parse sfContent with er | u
    · have hstart : start_hsm_approval sfLen sfContent usbMode persisted parse
          = (if usbMode then .parseErrorRaised (mkPolicyErr er)
             else .parseErrorShown (mkPolicyErr er)) := by
        simp [start_hsm_approval, h0, hp]
      refine ⟨by rw [hstart]; cases usbMode <;> simp [h0], ?_, ?_⟩
      · intro txt er2 hr hp2
        have hc : sfContent = txt := by simpa [readPolicyText, h0] using hr
        subst hc
        rw [hp] at hp2
        have her : er2 = er := by
          have := hp2.symm
          simpa using this
        subst her
        exact ⟨hstart, by rw [hstart]; cases usbMode <;> rfl⟩
      · intro b hb
        rw [hstart] at hb
        cases usbMode <;> simp at hb
    · have hstart : start_hsm_approval sfLen sfContent usbMode persisted parse
          = .success true := by
        simp [start_hsm_approval, h0, hp]
      refine ⟨by rw [hstart]; simp [h0], ?_, ?_⟩
      · intro txt er hr hp2
        have hc : sfContent = txt := by simpa [readPolicyText, h0] using hr
        subst hc
        rw [hp] at hp2
        exact absurd hp2 (by simp)
      · intro b hb
        rw [hstart] at hb
        have hb' : b = true := by
          have := hb.symm
          simpa using this
        subst hb'
        simp [h0]

theorem c6_loader_witness :
    start_hsm_approval 0 "" false none (fun _ => Except.ok ())
      = .noPolicyError :=
  (c6_loader 0 "" false none (fun _ => Except.ok ())).1.mpr ⟨rfl, rfl⟩
